import Mathlib

/-!
Shallow embedding of the React-Native practice app (camera capture, GPS
location tracking, login/registration form).  Each screen component is
modelled as an explicit state record; every `async` handler of the source
becomes a function from an environment (the responses of the OS
collaborators: permission subsystem, location subsystem, camera hardware,
media store, authentication API) and a pre-state to a post-state together
with the list of collaborator calls it performed (the effect trace).
React `useState` setters become functional record updates, `try/catch`
becomes a case split on the `Option`-valued collaborator response, and
string statuses such as `granted` become the enum `PermStatus`.
-/

/-- OS permission status, the string statuses `granted` / `denied` /
`undetermined` of the expo permission APIs. -/
inductive PermStatus
  | granted
  | denied
  | undetermined
deriving DecidableEq

/-- A latitude/longitude pair (`location.coords`). -/
structure Coords where
  latitude : Rat
  longitude : Rat
deriving DecidableEq

/-- A location fix as delivered by the location subsystem. -/
structure LocationFix where
  coords : Coords
  timestamp : Nat
deriving DecidableEq

/-- The `mapRegion` state of the location screen. -/
structure Region where
  latitude : Rat
  longitude : Rat
  latitudeDelta : Rat
  longitudeDelta : Rat
deriving DecidableEq

/-- The `useState` variables of `LocationScreen`. -/
structure LocationState where
  location : Option LocationFix
  errorMsg : Option String
  isLoading : Bool
  permissionStatus : Option PermStatus
  isTracking : Bool
  locationSubscription : Option Nat
  mapRegion : Region
deriving DecidableEq

/-- The initial `mapRegion` value of `LocationScreen`. -/
def initialMapRegion : Region :=
  { latitude := 37.78825, longitude := -122.4324,
    latitudeDelta := 0.0922, longitudeDelta := 0.0421 }

/-- The initial state of `LocationScreen` on mount. -/
def initialLocationState : LocationState :=
  { location := none, errorMsg := none, isLoading := false,
    permissionStatus := none, isTracking := false,
    locationSubscription := none, mapRegion := initialMapRegion }

/-- One collaborator call made by the location screen.  The permission
subsystem calls (`getForegroundPermissions`, `requestForegroundPermissions`)
are distinct from the location-subsystem calls (`getCurrentPosition`,
`watchPosition`); `watchPosition` records the handle returned by the OS
(`none` when the call threw), `removeSubscription` is
`subscription.remove()`. -/
inductive LocEffect
  | getForegroundPermissions
  | requestForegroundPermissions
  | getCurrentPosition
  | watchPosition (result : Option Nat)
  | removeSubscription (handle : Nat)
  | alert (title msg : String)
deriving DecidableEq

/-- Responses of the OS collaborators during one handler run; `none`
means the corresponding `await` threw. -/
structure LocEnv where
  getPermResult : Option PermStatus
  requestPermResult : Option PermStatus
  currentPositionResult : Option LocationFix
  watchPositionResult : Option Nat
deriving DecidableEq

/-- Handler `getCurrentLocation` (location screen, lines 99-121): set loading,
clear the error, call `Location.getCurrentPositionAsync`; on success store
the fix and recentre `mapRegion`, on failure set the error message;
finally clear loading. -/
def getCurrentLocation (env : LocEnv) (s : LocationState) :
    LocationState × List LocEffect :=
  let s1 := { s with isLoading := true, errorMsg := none }
  match env.currentPositionResult with
  | some fix =>
      ({ s1 with
          location := some fix,
          mapRegion :=
            { latitude := fix.coords.latitude,
              longitude := fix.coords.longitude,
              latitudeDelta := 0.01, longitudeDelta := 0.01 },
          isLoading := false },
        [.getCurrentPosition])
  | none =>
      ({ s1 with
          errorMsg := some "Unable to get location. Please ensure GPS is enabled.",
          isLoading := false },
        [.getCurrentPosition])

/-- Handler `checkLocationPermission` (location screen, lines 68-97): read the
cached status; if not granted, request once; if still not granted record
the denial error and alert, otherwise fall through to
`getCurrentLocation`.  A throw from either permission call is caught and
recorded as the generic permission-check error. -/
def checkLocationPermission (env : LocEnv) (s : LocationState) :
    LocationState × List LocEffect :=
  let s1 := { s with isLoading := true }
  match env.getPermResult with
  | none =>
      ({ s1 with errorMsg := some "Error checking location permission",
                 isLoading := false },
        [.getForegroundPermissions])
  | some status =>
      let s2 := { s1 with permissionStatus := some status }
      if status = .granted then
        let r := getCurrentLocation env s2
        ({ r.1 with isLoading := false }, .getForegroundPermissions :: r.2)
      else
        match env.requestPermResult with
        | none =>
            ({ s2 with errorMsg := some "Error checking location permission",
                       isLoading := false },
              [.getForegroundPermissions, .requestForegroundPermissions])
        | some newStatus =>
            let s3 := { s2 with permissionStatus := some newStatus }
            if newStatus = .granted then
              let r := getCurrentLocation env s3
              ({ r.1 with isLoading := false },
                .getForegroundPermissions :: .requestForegroundPermissions :: r.2)
            else
              ({ s3 with
                  errorMsg := some "Permission to access location was denied",
                  isLoading := false },
                [.getForegroundPermissions, .requestForegroundPermissions,
                 .alert "Location Permission Required"
                   "This app needs location access to show your current position. Please enable location in your device settings."])

/-- Handler `watchLocation` (location screen, lines 123-162).  Toggle semantics:
when `isTracking` is set the active subscription is removed and tracking
stops (the handler returns without subscribing again); otherwise
`Location.watchPositionAsync` is called and the returned handle stored. -/
def watchLocation (env : LocEnv) (s : LocationState) :
    LocationState × List LocEffect :=
  if s.isTracking then
    match s.locationSubscription with
    | some h =>
        ({ s with locationSubscription := none, isTracking := false },
          [.removeSubscription h])
    | none => ({ s with isTracking := false }, [])
  else
    let s1 := { s with isLoading := true }
    match env.watchPositionResult with
    | some h =>
        ({ s1 with locationSubscription := some h, isTracking := true,
                   isLoading := false },
          [.watchPosition (some h)])
    | none =>
        ({ s1 with errorMsg := some "Unable to watch location",
                   isLoading := false },
          [.watchPosition none])

/-- The callback registered by `watchPositionAsync` (lines 142-151): each
delivered fix replaces `location` and recentres `mapRegion`. -/
def onWatchDelivery (fix : LocationFix) (s : LocationState) : LocationState :=
  { s with
      location := some fix,
      mapRegion :=
        { latitude := fix.coords.latitude, longitude := fix.coords.longitude,
          latitudeDelta := 0.01, longitudeDelta := 0.01 } }

/-- The session teardown shared by the `useEffect` cleanup (lines 59-66)
and the stop branch of `watchLocation` (lines 126-130): remove the
subscription when one is present, leaving no live subscription and
tracking off. -/
def closeSession (s : LocationState) : LocationState × List LocEffect :=
  match s.locationSubscription with
  | some h =>
      ({ s with locationSubscription := none, isTracking := false },
        [.removeSubscription h])
  | none => ({ s with isTracking := false }, [])

/-- The UI events a user (or React) can deliver to the location screen. -/
inductive LocEvent
  | mount
  | grantPermissionPressed
  | getCurrentPressed
  | retryPressed
  | trackPressed
  | unmount
deriving DecidableEq

/-- One step of the location screen: each event dispatches its handler,
guarded exactly as the render tree guards it (the permission screen with
its grant button renders only while `permissionStatus` is a non-granted
status and not loading, lines 194-222; the map screen with the
get-current / retry / track buttons renders only when `permissionStatus`
is granted, lines 224-344; unmount runs the subscription cleanup). -/
def locScreenStep (ev : LocEvent) (env : LocEnv) (s : LocationState) :
    LocationState × List LocEffect :=
  match ev with
  | .mount => checkLocationPermission env s
  | .grantPermissionPressed =>
      match s.permissionStatus with
      | none => (s, [])
      | some st =>
          if st = .granted then (s, [])
          else if s.isLoading then (s, [])
          else checkLocationPermission env s
  | .getCurrentPressed =>
      if s.permissionStatus = some .granted then getCurrentLocation env s
      else (s, [])
  | .retryPressed =>
      if s.permissionStatus = some .granted then
        if s.errorMsg = none then (s, []) else getCurrentLocation env s
      else (s, [])
  | .trackPressed =>
      if s.permissionStatus = some .granted then watchLocation env s
      else (s, [])
  | .unmount =>
      match s.locationSubscription with
      | some h => (s, [.removeSubscription h])
      | none => (s, [])

/-- The set of subscription handles live in a state (zero or one). -/
def subsOf (s : LocationState) : List Nat :=
  s.locationSubscription.toList

/-- How one collaborator call changes the set of live subscriptions. -/
def stepLive (live : List Nat) : LocEffect → List Nat
  | .watchPosition (some h) => h :: live
  | .removeSubscription h => live.erase h
  | _ => live

/-- The largest number of simultaneously live subscriptions at any
instant while a trace of collaborator calls runs from `live`. -/
def maxLive (live : List Nat) : List LocEffect → Nat
  | [] => live.length
  | e :: rest => max live.length (maxLive (stepLive live e) rest)

/-! ## Camera screen (src/my-app/app/(tabs)/camera.jsx) -/

/-- Camera lens facing (`cameraType`, the strings `back` / `front`). -/
inductive CamFacing
  | back
  | front
deriving DecidableEq

/-- The test-mode state variable (`false` / `denied` / `granted`). -/
inductive TestMode
  | off
  | denied
  | granted
deriving DecidableEq

/-- The camera-permission object of `useCameraPermissions`. -/
structure CamPermission where
  granted : Bool
deriving DecidableEq

/-- A photo (`capturedImage`): the artifact returned by
`takePictureAsync` or the image picker. -/
structure Photo where
  uri : String
  width : Nat
  height : Nat
deriving DecidableEq

/-- The `useState` variables (and the camera ref) of `CameraScreen`.
`permission = none` models the hook still loading, `galleryPermission =
none` models its initial `null`; `cameraRefCurrent` records whether
`cameraRef.current` is non-null (the preview is mounted). -/
structure CamState where
  permission : Option CamPermission
  cameraType : CamFacing
  capturedImage : Option Photo
  isCameraReady : Bool
  isLoading : Bool
  galleryPermission : Option Bool
  testMode : TestMode
  cameraRefCurrent : Bool
deriving DecidableEq

/-- One collaborator call made by the camera screen. -/
inductive CamEffect
  | getMediaLibraryPermissions
  | requestMediaLibraryPermissions
  | requestCameraPermission
  | takePictureCall
  | launchImageLibrary
  | createAsset (uri : String)
  | createAlbum (album : String) (uri : String)
  | alert (title msg : String)
deriving DecidableEq

/-- Responses of the OS collaborators for the camera screen; `none`
(resp. `false` for the media-store booleans) means the call threw. -/
structure CamEnv where
  getMediaPermResult : Option PermStatus
  requestMediaPermResult : Option PermStatus
  requestCameraResult : Option Bool
  takePictureResult : Option Photo
  pickImageResult : Option (Option Photo)
  createAssetOk : Bool
  createAlbumOk : Bool
deriving DecidableEq

/-- Handler `checkGalleryPermission` (camera screen, lines 31-39): read the
media-library status and cache `status === 'granted'`; a throw is caught
and caches `false`. -/
def checkGalleryPermission (env : CamEnv) (s : CamState) :
    CamState × List CamEffect :=
  match env.getMediaPermResult with
  | some st =>
      ({ s with galleryPermission := some (st = .granted) },
        [.getMediaLibraryPermissions])
  | none =>
      ({ s with galleryPermission := some false },
        [.getMediaLibraryPermissions])

/-- Handler `requestGalleryPermission` (camera screen, lines 41-51): prompt via
`MediaLibrary.requestPermissionsAsync`, cache and return
`status === 'granted'`; a throw is caught, caching and returning
`false`.  The middle component is the returned boolean. -/
def requestGalleryPermission (env : CamEnv) (s : CamState) :
    CamState × Bool × List CamEffect :=
  match env.requestMediaPermResult with
  | some st =>
      ({ s with galleryPermission := some (st = .granted) },
        (st = .granted : Bool),
        [.requestMediaLibraryPermissions])
  | none =>
      ({ s with galleryPermission := some false }, false,
        [.requestMediaLibraryPermissions])

/-- Handler `handlePermissionRequest` (camera screen, lines 53-73): prompt for
camera permission (the hook records the new permission object) and alert
on the outcome; a throw is caught with an error alert. -/
def handlePermissionRequest (env : CamEnv) (s : CamState) :
    CamState × List CamEffect :=
  let s1 := { s with isLoading := true }
  match env.requestCameraResult with
  | some g =>
      ({ s1 with permission := some { granted := g }, isLoading := false },
        [.requestCameraPermission,
         if g then .alert "Success" "Camera permission granted!"
         else .alert "Permission Required"
           "Camera access is required to take photos. Please enable camera permission in your device settings."])
  | none =>
      ({ s1 with isLoading := false },
        [.requestCameraPermission,
         .alert "Error" "Failed to request camera permission"])

/-- The optional-chaining guard `!cameraRef.current || !permission?.granted`
of `takePicture`: `permission?.granted` is falsy when the permission
object is still `null`. -/
def camPermGranted : Option CamPermission → Bool
  | some p => p.granted
  | none => false

/-- Handler `takePicture` (camera screen, lines 75-92): bail out unless the
camera ref is mounted and camera permission is granted; otherwise call
`takePictureAsync`, storing the photo on success and alerting on a
hardware throw; `isCameraReady` is left untouched either way. -/
def takePicture (env : CamEnv) (s : CamState) : CamState × List CamEffect :=
  if !s.cameraRefCurrent || !camPermGranted s.permission then (s, [])
  else
    let s1 := { s with isLoading := true }
    match env.takePictureResult with
    | some photo =>
        ({ s1 with capturedImage := some photo, isLoading := false },
          [.takePictureCall])
    | none =>
        ({ s1 with isLoading := false },
          [.takePictureCall, .alert "Error" "Failed to take picture"])

/-- Handler `pickImageFromGallery` (camera screen, lines 94-114): launch the image
picker; `some (some p)` models an uncancelled pick of `p`, `some none` a
cancelled picker, `none` a throw. -/
def pickImageFromGallery (env : CamEnv) (s : CamState) :
    CamState × List CamEffect :=
  let s1 := { s with isLoading := true }
  match env.pickImageResult with
  | some (some p) =>
      ({ s1 with capturedImage := some p, isLoading := false },
        [.launchImageLibrary])
  | some none => ({ s1 with isLoading := false }, [.launchImageLibrary])
  | none =>
      ({ s1 with isLoading := false },
        [.launchImageLibrary,
         .alert "Error" "Failed to pick image from gallery"])

/-- The media-store portion of `saveToGallery` (camera screen, lines
131-142): `createAssetAsync` then `createAlbumAsync`; a throw from either
is caught with the save-error alert (no album call happens when the asset
call threw). -/
def saveToGalleryStore (env : CamEnv) (s : CamState) (img : Photo)
    (pre : List CamEffect) : CamState × List CamEffect :=
  let s1 := { s with isLoading := true }
  if env.createAssetOk then
    if env.createAlbumOk then
      ({ s1 with isLoading := false },
        pre ++ [.createAsset img.uri, .createAlbum "MyAppCamera" img.uri,
          .alert "Success" "Image saved to gallery!"])
    else
      ({ s1 with isLoading := false },
        pre ++ [.createAsset img.uri, .createAlbum "MyAppCamera" img.uri,
          .alert "Error" "Failed to save image to gallery"])
  else
    ({ s1 with isLoading := false },
      pre ++ [.createAsset img.uri,
        .alert "Error" "Failed to save image to gallery"])

/-- Handler `saveToGallery` (camera screen, lines 116-143): return at once when no
captured image exists; when the cached gallery permission is not truthy,
prompt once via `requestGalleryPermission` and return (with an alert) if
it is declined; only then contact the media store. -/
def saveToGallery (env : CamEnv) (s : CamState) : CamState × List CamEffect :=
  match s.capturedImage with
  | none => (s, [])
  | some img =>
      if s.galleryPermission = some true then
        saveToGalleryStore env s img []
      else
        let r := requestGalleryPermission env s
        if r.2.1 then saveToGalleryStore env r.1 img r.2.2
        else
          (r.1,
            r.2.2 ++ [.alert "Permission Required"
              "Gallery access is required to save photos. Please enable storage permission in settings."])

/-- Handler `toggleCameraType` (camera screen, lines 145-147): flip the facing
string; nothing else in the component state is touched. -/
def toggleCameraType (s : CamState) : CamState :=
  { s with cameraType := if s.cameraType = .back then .front else .back }

/-- Handler `resetCamera` (camera screen, lines 149-151). -/
def resetCamera (s : CamState) : CamState :=
  { s with capturedImage := none }

/-- The `onCameraReady` callback of the preview (camera screen, line 260). -/
def onCameraReady (s : CamState) : CamState :=
  { s with isCameraReady := true }

/-! ## Practice screen (src/my-app/app/(tabs)/practice.jsx) -/

/-- A user object as returned by the authentication API. -/
structure AppUser where
  name : String
  email : String
deriving DecidableEq

/-- The `useState` variables of the practice screen, plus the single
`userData` item of the expo secure store (`secureStore = some u` models
the item holding the JSON serialization of `u`, `none` models no item). -/
structure PracticeState where
  name : String
  email : String
  password : String
  isLogin : Bool
  loading : Bool
  currentUser : Option AppUser
  secureStore : Option AppUser
deriving DecidableEq

/-- A parsed response of the authentication API: `ok` is
`response.ok` (2xx), `message` and `user` the (possibly absent) fields of
the JSON body. -/
structure ApiResponse where
  ok : Bool
  message : Option String
  user : Option AppUser
deriving DecidableEq

/-- The network collaborator response; `none` models a fetch or JSON
parse throw. -/
structure PracticeEnv where
  fetchResult : Option ApiResponse
deriving DecidableEq

/-- One collaborator call made by the practice screen. -/
inductive PracticeEffect
  | fetchPost (endpoint : String)
  | secureStoreSet (key : String) (value : AppUser)
  | secureStoreDelete (key : String)
  | alert (title msg : String)
deriving DecidableEq

/-- The JavaScript expression `data.message || fallback`: an absent or
empty message string is falsy and yields the fallback. -/
def jsMessageOr (o : Option String) (fallback : String) : String :=
  match o with
  | some m => if m = "" then fallback else m
  | none => fallback

/-- The text `Alert.alert('Success', data.message)` displays: the message
field, or the literal `undefined` when the body has none. -/
def successAlertText (o : Option String) : String :=
  match o with
  | some m => m
  | none => "undefined"

/-- Handler `handleSubmit` (practice screen, lines 52-98): reject empty fields;
otherwise POST to `/login` or `/register` per `isLogin`.  On 2xx login:
success alert, `currentUser := data.user`, persist the user to the secure
store (`saveUserData`, lines 34-41; a `data.user` absent from the body
makes `setItemAsync` throw inside `saveUserData`, which catches it,
leaving the store unchanged) and clear the email and password fields.  On
2xx register: success alert, switch to login mode and clear the password.
On non-2xx: error alert with `data.message || 'Something went wrong'`.
A fetch throw is caught with the network-error alert. -/
def handleSubmit (env : PracticeEnv) (s : PracticeState) :
    PracticeState × List PracticeEffect :=
  if s.email = "" || s.password = "" || (!s.isLogin && s.name = "") then
    (s, [.alert "Error" "Please fill in all fields"])
  else
    let s1 := { s with loading := true }
    let endpoint := if s.isLogin then "/login" else "/register"
    match env.fetchResult with
    | none =>
        ({ s1 with loading := false },
          [.fetchPost endpoint,
           .alert "Error" "Network error. Please make sure the backend server is running."])
    | some r =>
        if r.ok then
          if s.isLogin then
            match r.user with
            | some u =>
                ({ s1 with currentUser := some u, secureStore := some u,
                           email := "", password := "", loading := false },
                  [.fetchPost endpoint,
                   .alert "Success" (successAlertText r.message),
                   .secureStoreSet "userData" u])
            | none =>
                ({ s1 with currentUser := none,
                           email := "", password := "", loading := false },
                  [.fetchPost endpoint,
                   .alert "Success" (successAlertText r.message)])
          else
            ({ s1 with isLogin := true, password := "", loading := false },
              [.fetchPost endpoint,
               .alert "Success" (successAlertText r.message)])
        else
          ({ s1 with loading := false },
            [.fetchPost endpoint,
             .alert "Error" (jsMessageOr r.message "Something went wrong")])

/-- Handler `toggleMode` (practice screen, lines 100-103). -/
def toggleMode (s : PracticeState) : PracticeState :=
  { s with isLogin := !s.isLogin, password := "" }

/-- Handler `handleLogout` (practice screen, lines 105-109): clear the stored
item and the current user. -/
def handleLogout (s : PracticeState) : PracticeState × List PracticeEffect :=
  ({ s with currentUser := none, secureStore := none },
    [.secureStoreDelete "userData",
     .alert "Logged Out" "You have been logged out successfully"])

/-- Handler `loadUserData` (practice screen, lines 21-32): restore `currentUser`
from the stored item when one exists. -/
def loadUserData (s : PracticeState) : PracticeState :=
  match s.secureStore with
  | some u => { s with currentUser := some u }
  | none => s

/-! ## Derived notions and sample inputs -/

/-- Whether a location-screen collaborator call contacts the location
subsystem proper (a fix request or a watch subscription), as opposed to
the permission subsystem or the UI. -/
def isLocAcquisition : LocEffect → Bool
  | .getCurrentPosition => true
  | .watchPosition _ => true
  | _ => false

/-- The location-subsystem calls of a trace. -/
def locAcquisitions (t : List LocEffect) : List LocEffect :=
  t.filter isLocAcquisition

/-- Whether a camera-screen collaborator call contacts the media store
(`createAssetAsync` / `createAlbumAsync`). -/
def isMediaStoreCall : CamEffect → Bool
  | .createAsset _ => true
  | .createAlbum _ _ => true
  | _ => false

/-- The media-store calls of a trace. -/
def mediaStoreCalls (t : List CamEffect) : List CamEffect :=
  t.filter isMediaStoreCall

/-- A sample fix used to instantiate scenarios. -/
def sampleFix : LocationFix := { coords := { latitude := 1, longitude := 2 }, timestamp := 5 }

/-- A location environment where every collaborator call succeeds and
permission is granted. -/
def locEnvAllOk : LocEnv :=
  { getPermResult := some .granted, requestPermResult := some .granted,
    currentPositionResult := some sampleFix, watchPositionResult := some 7 }

/-- A location environment whose permission subsystem reports and keeps
reporting a denial. -/
def locEnvDenied : LocEnv :=
  { getPermResult := some .denied, requestPermResult := some .denied,
    currentPositionResult := some sampleFix, watchPositionResult := some 7 }

/-- A location-screen state with an active watch subscription. -/
def trackingState : LocationState :=
  { initialLocationState with
      permissionStatus := some .granted, isTracking := true,
      locationSubscription := some 3 }

/-- A camera-screen state with granted permission and a ready preview. -/
def readyCamState : CamState :=
  { permission := some { granted := true }, cameraType := .back,
    capturedImage := none, isCameraReady := true, isLoading := false,
    galleryPermission := some true, testMode := .off, cameraRefCurrent := true }

/-- A sample photo. -/
def samplePhoto : Photo := { uri := "file:photo1.jpg", width := 640, height := 480 }

/-- A camera environment where every collaborator call succeeds. -/
def camEnvAllOk : CamEnv :=
  { getMediaPermResult := some .granted, requestMediaPermResult := some .granted,
    requestCameraResult := some true, takePictureResult := some samplePhoto,
    pickImageResult := some (some samplePhoto), createAssetOk := true,
    createAlbumOk := true }

/-- A camera environment whose media-library permission prompt is
declined. -/
def camEnvMediaDenied : CamEnv :=
  { camEnvAllOk with requestMediaPermResult := some .denied }

/-- A practice-screen state filled in for a login attempt. -/
def loginFormState : PracticeState :=
  { name := "", email := "alice@example.com", password := "pw",
    isLogin := true, loading := false, currentUser := none,
    secureStore := none }

/-- A practice-screen state filled in for a registration attempt. -/
def registerFormState : PracticeState :=
  { name := "Alice", email := "alice@example.com", password := "pw",
    isLogin := false, loading := false, currentUser := none,
    secureStore := none }

/-- A network environment answering with a non-2xx wrong-password
response carrying a message body. -/
def envWrongPassword : PracticeEnv :=
  { fetchResult := some { ok := false, message := some "Invalid email or password", user := none } }

/-- A network environment answering a registration with 2xx. -/
def envRegisterOk : PracticeEnv :=
  { fetchResult := some { ok := true, message := some "User registered successfully", user := none } }

/-! ## Helper lemmas -/

/-- Handler `getCurrentLocation` never changes the recorded permission status. -/
theorem getCurrentLocation_permissionStatus (env : LocEnv) (s : LocationState) :
    (getCurrentLocation env s).1.permissionStatus = s.permissionStatus := by
  unfold getCurrentLocation
  cases env.currentPositionResult <;> rfl

/-- Handler `watchLocation` never changes the recorded permission status. -/
theorem watchLocation_permissionStatus (env : LocEnv) (s : LocationState) :
    (watchLocation env s).1.permissionStatus = s.permissionStatus := by
  unfold watchLocation
  cases s.isTracking <;> cases s.locationSubscription <;>
    cases env.watchPositionResult <;> rfl


/-- The permission status recorded by `checkLocationPermission` is a
function of the environment alone. -/
theorem checkLocationPermission_permissionStatus (env : LocEnv) (s : LocationState) :
    (checkLocationPermission env s).1.permissionStatus =
      match env.getPermResult with
      | none => s.permissionStatus
      | some st =>
          if st = .granted then some st
          else
            match env.requestPermResult with
            | none => some st
            | some st2 => some st2 := by
  unfold checkLocationPermission
  cases env.getPermResult with
  | none => rfl
  | some st =>
      by_cases hst : st = PermStatus.granted
      · simp [hst, getCurrentLocation_permissionStatus]
      · cases env.requestPermResult with
        | none => simp [hst]
        | some st2 =>
            by_cases hst2 : st2 = PermStatus.granted <;>
              simp [hst, hst2, getCurrentLocation_permissionStatus]

/-- A location-subsystem call in a `checkLocationPermission` trace can
only have happened after the recorded status became granted. -/
theorem checkLocationPermission_acquisition (env : LocEnv) (s : LocationState) :
    locAcquisitions (checkLocationPermission env s).2 ≠ [] →
    (checkLocationPermission env s).1.permissionStatus = some .granted := by
  unfold checkLocationPermission
  cases env.getPermResult with
  | none => simp [locAcquisitions, isLocAcquisition]
  | some st =>
      by_cases hst : st = PermStatus.granted
      · intro _
        simp [hst, getCurrentLocation_permissionStatus]
      · cases env.requestPermResult with
        | none => simp [hst, locAcquisitions, isLocAcquisition]
        | some st2 =>
            by_cases hst2 : st2 = PermStatus.granted
            · intro _
              simp [hst, hst2, getCurrentLocation_permissionStatus]
            · simp [hst, hst2, locAcquisitions, isLocAcquisition]

/-! ## Claims -/

/-- C1 counterexample: in a state with an active subscription (handle 3)
and every collaborator available, `watchLocation` removes the prior
subscription and stops: its complete effect trace is the single removal
(no `watchPosition` call is made), and afterwards no subscription is
live and tracking is off — the second `watch()` does not start a new
subscription, contrary to the claim. -/
theorem watchLocation_no_restart_counterexample :
    (watchLocation locEnvAllOk trackingState).2 = [.removeSubscription 3] ∧
    (watchLocation locEnvAllOk trackingState).1.locationSubscription = none ∧
    (watchLocation locEnvAllOk trackingState).1.isTracking = false := by
  decide

/-- C1 (amended): calling `watch()` while a subscription is active
cancels the prior subscription first and returns without starting a new
one (toggle semantics); at every instant of the call at most one
subscription is live. -/
theorem watchLocation_toggle_cancels_prior (env : LocEnv) (s : LocationState)
    (h : Nat) (htr : s.isTracking = true)
    (hsub : s.locationSubscription = some h) :
    watchLocation env s =
      ({ s with locationSubscription := none, isTracking := false },
        [.removeSubscription h]) ∧
    maxLive (subsOf s) (watchLocation env s).2 ≤ 1 := by
  constructor
  · simp [watchLocation, htr, hsub]
  · simp [watchLocation, htr, hsub, subsOf, maxLive, stepLive]

/-- C1 witness. -/
theorem watchLocation_toggle_cancels_prior_witness :
    watchLocation locEnvAllOk trackingState =
      ({ trackingState with locationSubscription := none, isTracking := false },
        [.removeSubscription 3]) ∧
    maxLive (subsOf trackingState) (watchLocation locEnvAllOk trackingState).2 ≤ 1 :=
  watchLocation_toggle_cancels_prior locEnvAllOk trackingState 3 rfl rfl

/-- C5: `closeSession` is total on states (safe from every state,
including an already-closed one), always ends with no live subscription
and tracking off, is idempotent (a second call from the closed state
changes nothing and performs no collaborator call), and is exactly what
`watchLocation` does when tracking is active. -/
theorem closeSession_safe_idempotent (s : LocationState) (env : LocEnv) :
    (closeSession s).1.locationSubscription = none ∧
    (closeSession s).1.isTracking = false ∧
    closeSession (closeSession s).1 = ((closeSession s).1, []) ∧
    (s.isTracking = true → watchLocation env s = closeSession s) := by
  obtain ⟨loc, err, ld, ps, tr, sub, reg⟩ := s
  cases tr <;> cases sub <;> simp [closeSession, watchLocation]

/-- C5 witness. -/
theorem closeSession_safe_idempotent_witness :
    (closeSession trackingState).1.locationSubscription = none ∧
    (closeSession trackingState).1.isTracking = false ∧
    closeSession (closeSession trackingState).1 = ((closeSession trackingState).1, []) ∧
    watchLocation locEnvAllOk trackingState = closeSession trackingState :=
  ⟨(closeSession_safe_idempotent trackingState locEnvAllOk).1,
   (closeSession_safe_idempotent trackingState locEnvAllOk).2.1,
   (closeSession_safe_idempotent trackingState locEnvAllOk).2.2.1,
   (closeSession_safe_idempotent trackingState locEnvAllOk).2.2.2 rfl⟩

/-- C2: with the OS reporting a non-granted status and the re-request
also refused, `checkLocationPermission` ends with the permission-denied
error and its trace contains no location-subsystem call at all (the
one-shot fix request is never issued); and over every event the screen
can process, any location-subsystem call implies the recorded permission
status is granted. -/
theorem denied_permission_never_contacts_location (env : LocEnv)
    (s : LocationState) (st st2 : PermStatus)
    (hg : env.getPermResult = some st) (hng : st ≠ .granted)
    (hr : env.requestPermResult = some st2) (hnr : st2 ≠ .granted) :
    (checkLocationPermission env s).1.errorMsg =
      some "Permission to access location was denied" ∧
    locAcquisitions (checkLocationPermission env s).2 = [] ∧
    ∀ ev env2 s2, locAcquisitions (locScreenStep ev env2 s2).2 ≠ [] →
      (locScreenStep ev env2 s2).1.permissionStatus = some .granted := by
  refine ⟨?_, ?_, ?_⟩
  · simp [checkLocationPermission, hg, hng, hr, hnr]
  · simp [checkLocationPermission, hg, hng, hr, hnr, locAcquisitions,
      isLocAcquisition]
  · intro ev env2 s2 hne
    cases ev with
    | mount => exact checkLocationPermission_acquisition env2 s2 hne
    | grantPermissionPressed =>
        revert hne
        unfold locScreenStep
        cases s2.permissionStatus with
        | none => simp [locAcquisitions]
        | some st3 =>
            by_cases h3 : st3 = PermStatus.granted
            · simp [h3, locAcquisitions]
            · by_cases hld : s2.isLoading = true
              · simp [h3, hld, locAcquisitions]
              · simp only [h3, hld, if_neg, Bool.not_eq_true] at *
                simp [h3, hld]
                exact checkLocationPermission_acquisition env2 s2
    | getCurrentPressed =>
        revert hne
        unfold locScreenStep
        by_cases hp : s2.permissionStatus = some PermStatus.granted
        · simp [hp, getCurrentLocation_permissionStatus]
        · simp [hp, locAcquisitions]
    | retryPressed =>
        revert hne
        unfold locScreenStep
        by_cases hp : s2.permissionStatus = some PermStatus.granted
        · by_cases he : s2.errorMsg = none
          · simp [hp, he, locAcquisitions]
          · simp [hp, he, getCurrentLocation_permissionStatus]
        · simp [hp, locAcquisitions]
    | trackPressed =>
        revert hne
        unfold locScreenStep
        by_cases hp : s2.permissionStatus = some PermStatus.granted
        · simp [hp, watchLocation_permissionStatus]
        · simp [hp, locAcquisitions]
    | unmount =>
        revert hne
        unfold locScreenStep
        cases s2.locationSubscription <;> simp [locAcquisitions, isLocAcquisition]

/-- C2 witness. -/
theorem denied_permission_never_contacts_location_witness :
    (checkLocationPermission locEnvDenied initialLocationState).1.errorMsg =
      some "Permission to access location was denied" ∧
    locAcquisitions (checkLocationPermission locEnvDenied initialLocationState).2 = [] :=
  ⟨(denied_permission_never_contacts_location locEnvDenied initialLocationState
      .denied .denied rfl (by decide) rfl (by decide)).1,
   (denied_permission_never_contacts_location locEnvDenied initialLocationState
      .denied .denied rfl (by decide) rfl (by decide)).2.1⟩

/-- The number of OS permission prompts `checkLocationPermission` issues
is determined by the cached status: none when it is already granted,
exactly one otherwise. -/
theorem checkLocationPermission_promptCount (env : LocEnv) (s : LocationState) :
    (checkLocationPermission env s).2.count .requestForegroundPermissions =
      (match env.getPermResult with
       | none => 0
       | some st => if st = .granted then 0 else 1) := by
  obtain ⟨g, r, c, w⟩ := env
  cases g with
  | none => rfl
  | some st =>
      cases st with
      | granted => cases c <;> rfl
      | denied =>
          cases r with
          | none => rfl
          | some st2 => cases st2 <;> cases c <;> rfl
      | undetermined =>
          cases r with
          | none => rfl
          | some st2 => cases st2 <;> cases c <;> rfl

/-- The gallery flag cached by `checkGalleryPermission` is a function of
the OS response alone. -/
theorem checkGalleryPermission_result (cenv : CamEnv) (cs : CamState) :
    (checkGalleryPermission cenv cs).1.galleryPermission =
      some (match cenv.getMediaPermResult with
            | some st => decide (st = PermStatus.granted)
            | none => false) := by
  cases hm : cenv.getMediaPermResult <;> simp [checkGalleryPermission, hm]

/-- The boolean `requestGalleryPermission` returns is a function of the
OS response alone, and it equals the flag it caches. -/
theorem requestGalleryPermission_result (cenv : CamEnv) (cs : CamState) :
    (requestGalleryPermission cenv cs).2.1 =
      (match cenv.requestMediaPermResult with
       | some st => decide (st = PermStatus.granted)
       | none => false) ∧
    (requestGalleryPermission cenv cs).1.galleryPermission =
      some (requestGalleryPermission cenv cs).2.1 := by
  cases hm : cenv.requestMediaPermResult <;>
    simp [requestGalleryPermission, hm]

/-- C3: for the location capability, `checkLocationPermission` first
reads the cached status; when it is granted it records it and issues no
OS prompt; when it is not granted it prompts exactly once and records
the prompt result.  For the media-library capability, the
permission-gate of `saveToGallery` issues no prompt when the cached flag
is already granted, and `requestGalleryPermission` prompts exactly once
per call, recording and returning the result. -/
theorem requestCapability_cached_then_single_prompt (env : LocEnv)
    (s : LocationState) (cenv : CamEnv) (cs : CamState) :
    (env.getPermResult = some PermStatus.granted →
      (checkLocationPermission env s).2.count .requestForegroundPermissions = 0 ∧
      (checkLocationPermission env s).1.permissionStatus = some .granted) ∧
    (∀ st st2, env.getPermResult = some st → st ≠ .granted →
      env.requestPermResult = some st2 →
      (checkLocationPermission env s).2.count .requestForegroundPermissions = 1 ∧
      (checkLocationPermission env s).1.permissionStatus = some st2) ∧
    (∀ img, cs.capturedImage = some img → cs.galleryPermission = some true →
      (saveToGallery cenv cs).2.count .requestMediaLibraryPermissions = 0) ∧
    ((requestGalleryPermission cenv cs).2.2.count .requestMediaLibraryPermissions = 1 ∧
      ∀ st, cenv.requestMediaPermResult = some st →
        (requestGalleryPermission cenv cs).1.galleryPermission =
          some (decide (st = PermStatus.granted)) ∧
        (requestGalleryPermission cenv cs).2.1 =
          decide (st = PermStatus.granted)) := by
  refine ⟨?_, ?_, ?_, ?_, ?_⟩
  · intro h
    rw [checkLocationPermission_promptCount, checkLocationPermission_permissionStatus, h]
    simp
  · intro st st2 hg hng hr
    rw [checkLocationPermission_promptCount, checkLocationPermission_permissionStatus,
      hg, hr]
    simp [hng]
  · intro img himg hflag
    simp only [saveToGallery, himg, hflag, if_pos rfl]
    unfold saveToGalleryStore
    cases cenv.createAssetOk <;> cases cenv.createAlbumOk <;> rfl
  · cases hm : cenv.requestMediaPermResult <;>
      simp [requestGalleryPermission, hm]
  · intro st hst
    simp [requestGalleryPermission, hst]

/-- C3 witness. -/
theorem requestCapability_cached_then_single_prompt_witness :
    ((checkLocationPermission locEnvAllOk initialLocationState).2.count
        .requestForegroundPermissions = 0 ∧
      (checkLocationPermission locEnvAllOk initialLocationState).1.permissionStatus =
        some .granted) ∧
    ((checkLocationPermission locEnvDenied initialLocationState).2.count
        .requestForegroundPermissions = 1 ∧
      (checkLocationPermission locEnvDenied initialLocationState).1.permissionStatus =
        some .denied) ∧
    (saveToGallery camEnvAllOk
        { readyCamState with capturedImage := some samplePhoto }).2.count
      .requestMediaLibraryPermissions = 0 ∧
    (requestGalleryPermission camEnvAllOk readyCamState).2.2.count
      .requestMediaLibraryPermissions = 1 :=
  ⟨(requestCapability_cached_then_single_prompt locEnvAllOk initialLocationState
      camEnvAllOk readyCamState).1 rfl,
   (requestCapability_cached_then_single_prompt locEnvDenied initialLocationState
      camEnvAllOk readyCamState).2.1 .denied .denied rfl (by decide) rfl,
   (requestCapability_cached_then_single_prompt locEnvAllOk initialLocationState
      camEnvAllOk { readyCamState with capturedImage := some samplePhoto }).2.2.1
      samplePhoto rfl rfl,
   (requestCapability_cached_then_single_prompt locEnvAllOk initialLocationState
      camEnvAllOk readyCamState).2.2.2.1⟩

/-- C8: with the OS responses unchanged between the calls, running the
capability request twice in succession records/returns the same
permission result both times: the status `checkLocationPermission`
records is the same (and resolved) after the first and the second run,
`checkGalleryPermission` caches the same flag twice, and
`requestGalleryPermission` returns the same boolean twice. -/
theorem requestCapability_idempotent_repeat (env : LocEnv)
    (s : LocationState) (cenv : CamEnv) (cs : CamState) (st : PermStatus)
    (hg : env.getPermResult = some st) :
    ((checkLocationPermission env (checkLocationPermission env s).1).1.permissionStatus =
        (checkLocationPermission env s).1.permissionStatus ∧
      ((checkLocationPermission env s).1.permissionStatus).isSome = true) ∧
    (checkGalleryPermission cenv (checkGalleryPermission cenv cs).1).1.galleryPermission =
      (checkGalleryPermission cenv cs).1.galleryPermission ∧
    (requestGalleryPermission cenv (requestGalleryPermission cenv cs).1).2.1 =
      (requestGalleryPermission cenv cs).2.1 := by
  refine ⟨⟨?_, ?_⟩, ?_, ?_⟩
  · rw [checkLocationPermission_permissionStatus,
      checkLocationPermission_permissionStatus, hg]
  · rw [checkLocationPermission_permissionStatus, hg]
    by_cases hst : st = PermStatus.granted
    · simp [hst]
    · cases env.requestPermResult <;> simp [hst]
  · rw [checkGalleryPermission_result, checkGalleryPermission_result]
  · rw [(requestGalleryPermission_result cenv
        (requestGalleryPermission cenv cs).1).1,
      (requestGalleryPermission_result cenv cs).1]

/-- C8 witness. -/
theorem requestCapability_idempotent_repeat_witness :
    ((checkLocationPermission locEnvDenied
          (checkLocationPermission locEnvDenied initialLocationState).1).1.permissionStatus =
        (checkLocationPermission locEnvDenied initialLocationState).1.permissionStatus ∧
      ((checkLocationPermission locEnvDenied initialLocationState).1.permissionStatus).isSome = true) ∧
    (checkGalleryPermission camEnvAllOk
        (checkGalleryPermission camEnvAllOk readyCamState).1).1.galleryPermission =
      (checkGalleryPermission camEnvAllOk readyCamState).1.galleryPermission ∧
    (requestGalleryPermission camEnvAllOk
        (requestGalleryPermission camEnvAllOk readyCamState).1).2.1 =
      (requestGalleryPermission camEnvAllOk readyCamState).2.1 :=
  requestCapability_idempotent_repeat locEnvDenied initialLocationState
    camEnvAllOk readyCamState .denied rfl

/-- C4: with camera permission granted, a mounted preview and the
session ready, a successful `takePicture` stores exactly the captured
photo (whose URI is the platform-provided non-empty string) and leaves
the session flags untouched — still ready; a hardware throw is likewise
non-fatal: the session stays ready and only an error alert is raised. -/
theorem takePicture_ready_returns_artifact (env : CamEnv) (s : CamState)
    (p : CamPermission) (photo : Photo)
    (href : s.cameraRefCurrent = true) (hperm : s.permission = some p)
    (hg : p.granted = true) (hready : s.isCameraReady = true) :
    (env.takePictureResult = some photo → photo.uri ≠ "" →
      (takePicture env s).1.capturedImage = some photo ∧
      photo.uri ≠ "" ∧
      (takePicture env s).1.isCameraReady = true ∧
      (takePicture env s).1.cameraType = s.cameraType ∧
      (takePicture env s).1.permission = s.permission ∧
      (takePicture env s).1.cameraRefCurrent = true ∧
      (takePicture env s).2 = [.takePictureCall]) ∧
    (env.takePictureResult = none →
      (takePicture env s).1.capturedImage = s.capturedImage ∧
      (takePicture env s).1.isCameraReady = true ∧
      (takePicture env s).2 =
        [.takePictureCall, .alert "Error" "Failed to take picture"]) := by
  constructor
  · intro hres hur
    simp [takePicture, camPermGranted, href, hperm, hg, hready, hres, hur]
  · intro hres
    simp [takePicture, camPermGranted, href, hperm, hg, hready, hres]

/-- C4 witness. -/
theorem takePicture_ready_returns_artifact_witness :
    (takePicture camEnvAllOk readyCamState).1.capturedImage = some samplePhoto ∧
    (takePicture camEnvAllOk readyCamState).1.isCameraReady = true ∧
    (takePicture camEnvAllOk readyCamState).2 = [.takePictureCall] :=
  (by
    have h := (takePicture_ready_returns_artifact camEnvAllOk readyCamState
      { granted := true } samplePhoto rfl rfl rfl rfl).1 rfl (by decide)
    exact ⟨h.1, h.2.2.1, h.2.2.2.2.2.2⟩)

/-- C7 counterexample: `toggleCameraType` at a ready back-facing session
yields a state that differs only in the facing and is still marked ready
(`isCameraReady` is never reset, so the session does not pass through an
Opening phase awaiting the readiness callback), and at a non-ready state
the toggle succeeds all the same (it is not restricted to Ready). -/
theorem toggleCameraType_no_opening_counterexample :
    toggleCameraType readyCamState =
      { readyCamState with cameraType := CamFacing.front } ∧
    (toggleCameraType readyCamState).isCameraReady = true ∧
    (toggleCameraType
        { readyCamState with isCameraReady := false }).cameraType =
      CamFacing.front := by
  decide

/-- C7 (amended): `toggleCameraType` flips the lens facing (back↔front)
and leaves every other piece of the session state unchanged — in
particular it does not reset `isCameraReady`, so the session never
re-enters an Opening phase, and it is callable from any state, not only
from Ready; readiness is only ever established by the `onCameraReady`
callback of the preview. -/
theorem toggleCameraType_flips_facing_only (s : CamState) :
    (toggleCameraType s).cameraType =
      (if s.cameraType = CamFacing.back then CamFacing.front
       else CamFacing.back) ∧
    (toggleCameraType s).isCameraReady = s.isCameraReady ∧
    (toggleCameraType s).capturedImage = s.capturedImage ∧
    (toggleCameraType s).permission = s.permission ∧
    (toggleCameraType s).isLoading = s.isLoading ∧
    (toggleCameraType s).galleryPermission = s.galleryPermission ∧
    (toggleCameraType s).testMode = s.testMode ∧
    (toggleCameraType s).cameraRefCurrent = s.cameraRefCurrent ∧
    (onCameraReady s).isCameraReady = true := by
  simp [toggleCameraType, onCameraReady]

/-- C9: `saveToGallery` without a captured image returns at once with no
collaborator call at all; and with an image but an untruthy cached
gallery flag and a declined permission prompt it performs no media-store
call (`createAssetAsync` / `createAlbumAsync` are unreachable), issuing
exactly the one prompt. -/
theorem saveToGallery_media_store_guarded (env : CamEnv) (s : CamState) :
    (s.capturedImage = none → saveToGallery env s = (s, [])) ∧
    (∀ img, s.capturedImage = some img → s.galleryPermission ≠ some true →
      (requestGalleryPermission env s).2.1 = false →
      mediaStoreCalls (saveToGallery env s).2 = [] ∧
      (saveToGallery env s).2.count .requestMediaLibraryPermissions = 1) := by
  constructor
  · intro h
    simp [saveToGallery, h]
  · intro img himg hflag hdecl
    have hr := (requestGalleryPermission_result env s).1
    rw [hdecl] at hr
    cases hm : env.requestMediaPermResult with
    | none =>
        simp [saveToGallery, himg, hflag, requestGalleryPermission, hm,
          mediaStoreCalls, isMediaStoreCall]
    | some st =>
        rw [hm] at hr
        simp only [hm] at hr
        simp [saveToGallery, himg, hflag, requestGalleryPermission, hm, ← hr,
          mediaStoreCalls, isMediaStoreCall]

/-- C9 witness. -/
theorem saveToGallery_media_store_guarded_witness :
    saveToGallery camEnvAllOk readyCamState = (readyCamState, []) ∧
    mediaStoreCalls
      (saveToGallery camEnvMediaDenied
        { readyCamState with capturedImage := some samplePhoto,
                             galleryPermission := some false }).2 = [] :=
  ⟨(saveToGallery_media_store_guarded camEnvAllOk readyCamState).1 rfl,
   ((saveToGallery_media_store_guarded camEnvMediaDenied
      { readyCamState with capturedImage := some samplePhoto,
                           galleryPermission := some false }).2
      samplePhoto rfl (by decide) (by decide)).1⟩

/-- C6: a login attempt answered with a non-2xx response carrying a
non-empty `message` body raises exactly the error alert with that
message after the single POST, and neither `currentUser` nor the secure
store changes (no `setItemAsync` call appears in the trace). -/
theorem login_failure_surfaces_message_no_cache (env : PracticeEnv)
    (s : PracticeState) (r : ApiResponse) (m : String)
    (hlogin : s.isLogin = true) (hemail : s.email ≠ "")
    (hpw : s.password ≠ "") (hf : env.fetchResult = some r)
    (hok : r.ok = false) (hm : r.message = some m) (hm0 : m ≠ "") :
    (handleSubmit env s).2 = [.fetchPost "/login", .alert "Error" m] ∧
    (handleSubmit env s).1.currentUser = s.currentUser ∧
    (handleSubmit env s).1.secureStore = s.secureStore := by
  simp [handleSubmit, hlogin, hemail, hpw, hf, hok, hm, jsMessageOr, hm0]

/-- C6 witness. -/
theorem login_failure_surfaces_message_no_cache_witness :
    (handleSubmit envWrongPassword loginFormState).2 =
      [.fetchPost "/login", .alert "Error" "Invalid email or password"] ∧
    (handleSubmit envWrongPassword loginFormState).1.currentUser =
      loginFormState.currentUser ∧
    (handleSubmit envWrongPassword loginFormState).1.secureStore =
      loginFormState.secureStore :=
  login_failure_surfaces_message_no_cache envWrongPassword loginFormState
    { ok := false, message := some "Invalid email or password", user := none }
    "Invalid email or password" rfl (by decide) (by decide) rfl rfl rfl
    (by decide)

/-- C10: a 2xx registration response makes `handleSubmit` switch the
form to login mode and clear the password, while the name and email
fields, `currentUser` and the persisted secure-store item are all left
unchanged; the trace is the POST plus the success alert, with no
secure-store write. -/
theorem register_success_no_login_no_cache (env : PracticeEnv)
    (s : PracticeState) (r : ApiResponse)
    (hreg : s.isLogin = false) (hname : s.name ≠ "")
    (hemail : s.email ≠ "") (hpw : s.password ≠ "")
    (hf : env.fetchResult = some r) (hok : r.ok = true) :
    (handleSubmit env s).1.isLogin = true ∧
    (handleSubmit env s).1.password = "" ∧
    (handleSubmit env s).1.currentUser = s.currentUser ∧
    (handleSubmit env s).1.secureStore = s.secureStore ∧
    (handleSubmit env s).1.name = s.name ∧
    (handleSubmit env s).1.email = s.email ∧
    (handleSubmit env s).2 =
      [.fetchPost "/register", .alert "Success" (successAlertText r.message)] := by
  simp [handleSubmit, hreg, hname, hemail, hpw, hf, hok]

/-- C10 witness. -/
theorem register_success_no_login_no_cache_witness :
    (handleSubmit envRegisterOk registerFormState).1.isLogin = true ∧
    (handleSubmit envRegisterOk registerFormState).1.password = "" ∧
    (handleSubmit envRegisterOk registerFormState).1.currentUser =
      registerFormState.currentUser ∧
    (handleSubmit envRegisterOk registerFormState).1.secureStore =
      registerFormState.secureStore ∧
    (handleSubmit envRegisterOk registerFormState).1.name = registerFormState.name ∧
    (handleSubmit envRegisterOk registerFormState).1.email = registerFormState.email ∧
    (handleSubmit envRegisterOk registerFormState).2 =
      [.fetchPost "/register",
       .alert "Success" (successAlertText (some "User registered successfully"))] :=
  register_success_no_login_no_cache envRegisterOk registerFormState
    { ok := true, message := some "User registered successfully", user := none }
    rfl (by decide) (by decide) (by decide) rfl rfl
